import Mathlib

/-!
Verification of the three-tier replicated key-value store (exercise 5 of the
repository) against its natural-language specification.

Shallow embedding notes.
* Python `dict` state is modelled as an insertion-ordered association list
  (`dictGet` / `dictSet` mirror `dict.get` and `dict[k] = v`).
* `collections.deque(maxlen=100)` is modelled by `ringAppend`.
* Fallible Python code is modelled with `Except PyErr`; a Python method that
  mutates `self` and may raise is modelled as a function returning the
  post-state together with the `Except` result, because in Python the
  mutations performed before the `raise` survive the exception.
* Wall-clock timestamps are abstracted to an explicit `now : Int` argument.
* File I/O on the version-history log is modelled by a `logOk : Bool`
  environment flag (whether the append to the jsonl file succeeds) and a
  `log : List LogEntry` field holding the file's contents.
* The protobuf `Operation` message is the flat schema of
  `src/proto/replication_pb2.py` (fields `type`, `key`, optional `value`,
  `timestamp`): that is the module every node imports.  `HasField` on a
  proto3 message raises `ValueError` for any name that is not a field with
  explicit presence; the only such field of `Operation` is `value`.
-/

/-- Wire-level data item (`replication.DataItem`): key, value, version,
timestamp. -/
structure DataItem where
  key : Int
  value : Int
  version : Int
  timestamp : Int
deriving DecidableEq, Repr

/-- One line of `<node_id>_version_history.jsonl`
(`{key, value, version, timestamp, node_id}`). -/
structure LogEntry where
  key : Int
  value : Int
  version : Int
  timestamp : Int
  node_id : String
deriving DecidableEq, Repr

/-- Python exception kinds raised by the embedded code. -/
inductive PyErr where
  | exn (msg : String)
  | valueError (msg : String)
  | ioError
deriving DecidableEq, Repr

/-- `dict.get k` on an insertion-ordered association list. -/
def dictGet : List (Int × DataItem) → Int → Option DataItem
  | [], _ => none
  | (k', v) :: rest, k => if k' = k then some v else dictGet rest k

/-- `d[k] = v` on an insertion-ordered association list: replace in place,
otherwise append (Python dicts preserve insertion order). -/
def dictSet : List (Int × DataItem) → Int → DataItem → List (Int × DataItem)
  | [], k, v => [(k, v)]
  | (k', v') :: rest, k, v =>
      if k' = k then (k, v) :: rest else (k', v') :: dictSet rest k v

/-- `deque(maxlen=100).append x`: when the deque is full the leftmost element
is dropped. -/
def ringAppend (l : List DataItem) (x : DataItem) : List DataItem :=
  if l.length < 100 then l ++ [x] else (l.drop (l.length - 99)) ++ [x]

/-- Python `list(h)[-n:]` (for `n = 0` the slice is the whole list). -/
def lastSlice (l : List DataItem) (n : Nat) : List DataItem :=
  if n = 0 then l else l.drop (l.length - n)

/-- State of `src/ex5/src/storage/data_store.py:DataStore`: the key-to-item
map `_data`, the bounded ring `_update_history`, the contents of the
version-history jsonl file, the node id and the version counter. -/
structure DataStore where
  data : List (Int × DataItem)
  update_history : List DataItem
  log : List LogEntry
  node_id : String
  current_version : Int
deriving DecidableEq, Repr

/-- `DataStore.__init__`: fresh in-memory state; the counter starts at 0 and
the constructor never reads the existing log file (`priorLog` models the
file's surviving contents, to which later updates append). -/
def DataStore.init (node_id : String) (priorLog : List LogEntry) : DataStore :=
  { data := []
    update_history := []
    log := priorLog
    node_id := node_id
    current_version := 0 }

/-- `DataStore.get` (lines 30-38). -/
def DataStore.get (s : DataStore) (k : Int) : Option DataItem :=
  dictGet s.data k

/-- `DataStore.update` (lines 46-108).  Validates `key`/`version`, builds the
item, assigns `self._data[key] = item` and appends to `_update_history`
unconditionally, then appends the record to the log files; a failing file
write raises after the in-memory mutations have already happened. -/
def DataStore.update (s : DataStore) (key value version now : Int)
    (logOk : Bool) : DataStore × Except PyErr DataItem :=
  if key < 0 then
    (s, .error (.valueError "Invalid key: key must be non-negative"))
  else if version < 0 then
    (s, .error (.valueError "Invalid version: version must be non-negative"))
  else
    let item : DataItem := ⟨key, value, version, now⟩
    let s₁ : DataStore :=
      { s with
        data := dictSet s.data key item
        update_history := ringAppend s.update_history item }
    if logOk then
      let e : LogEntry := ⟨key, value, version, now, s.node_id⟩
      ({ s₁ with log := s₁.log ++ [e] }, .ok item)
    else
      (s₁, .error .ioError)

/-- `DataStore.get_next_version` (lines 110-114): increment and return. -/
def DataStore.getNextVersion (s : DataStore) : Int × DataStore :=
  (s.current_version + 1, { s with current_version := s.current_version + 1 })

/-- `DataStore.get_recent_updates` (lines 116-120). -/
def DataStore.getRecentUpdates (s : DataStore) (count : Nat) : List DataItem :=
  lastSlice s.update_history count

/-- Highest version in a log (used to state what claim C8 expects of
startup). -/
def maxLogVersion (l : List LogEntry) : Int :=
  l.foldl (fun acc e => max acc e.version) 0

/-! ### Wire messages (flat schema of `src/proto/replication_pb2.py`) -/

/-- `replication.Operation.Type`. -/
inductive OpType where
  | READ
  | WRITE
deriving DecidableEq, Repr

/-- `replication.Operation` (flat schema: enum `type`, `key`, proto3
`optional value`, `timestamp`).  There are no `read`/`write` submessages in
the schema the nodes import. -/
structure Operation where
  type : OpType
  key : Int
  value : Option Int
  timestamp : Int
deriving DecidableEq, Repr

/-- Reading the proto3 optional `value` field returns the default 0 when it
is unset. -/
def Operation.valueOrDefault (op : Operation) : Int :=
  op.value.getD 0

/-- `message.HasField name` in python-protobuf: legal only for fields with
explicit presence; for every other name it raises `ValueError`.  On the flat
`Operation` the only field with presence is the optional `value`, so
`HasField('write')` and `HasField('read')` raise. -/
def Operation.hasField (op : Operation) (f : String) : Except PyErr Bool :=
  if f = "value" then .ok op.value.isSome
  else .error (.valueError ("Protocol message Operation has no field " ++ f))

/-- `replication.Transaction.Type`. -/
inductive TxType where
  | READ_ONLY
  | UPDATE
deriving DecidableEq, Repr

/-- `replication.Transaction`. -/
structure Transaction where
  type : TxType
  target_layer : Int
  operations : List Operation
deriving DecidableEq, Repr

/-- `replication.UpdateGroup` (`updates`, `source_node`, `layer`,
`update_count`). -/
structure UpdateGroup where
  updates : List DataItem
  source_node : String
  layer : Int
  update_count : Int
deriving DecidableEq, Repr

/-- `replication.AckResponse`. -/
structure AckResponse where
  success : Bool
  message : String
deriving DecidableEq, Repr

/-- `replication.TransactionResponse`. -/
structure TransactionResponse where
  success : Bool
  results : List DataItem
  error_message : String
deriving DecidableEq, Repr

/-- `source_node.startswith('A')` from
`FirstLayerNode.SyncUpdates`. -/
def startswithA (s : String) : Bool :=
  match s.data with
  | [] => false
  | c :: _ => c = 'A'

/-! ### Tier-1 / tier-2 nodes (`first_layer_node.py`, `second_layer_node.py`)

A primary/backup node is reduced to the state its RPC handlers touch: the
store, the primary flag and the backup stubs.  A backup stub is modelled by
the one bit `PassiveReplication.handle_update` observes about it: whether the
`PropagateUpdate` call raises (`true` = call succeeds). -/

structure PBNode where
  node_id : String
  store : DataStore
  is_primary : Bool
  backup_stubs : List Bool
deriving DecidableEq, Repr

/-- Inner loop of `PassiveReplication.handle_update`: send one notification
to every backup stub, returning `false` at the first raising call. -/
def propagateToBackups : List Bool → Bool
  | [] => true
  | stubOk :: rest => if stubOk then propagateToBackups rest else false

/-- `PassiveReplication.handle_update` (lines 74-97): for each update of the
group, fan a single-item `PropagateUpdate` out to every backup; a raising
call fails the whole batch.  (With no backup stubs it succeeds at once.) -/
def passiveHandleUpdate (stubs : List Bool) : List DataItem → Bool
  | [] => true
  | _ :: rest =>
      if propagateToBackups stubs then passiveHandleUpdate stubs rest
      else false

/-- The store-application loop shared by both `SyncUpdates` handlers: apply
each item of the group with `store.update`; an exception stops the loop but
keeps the updates already applied. -/
def applyUpdates (store : DataStore) (now : Int) (logOk : Bool) :
    List DataItem → DataStore × Except PyErr Unit
  | [] => (store, .ok ())
  | u :: rest =>
      match store.update u.key u.value u.version now logOk with
      | (s', .ok _) => applyUpdates s' now logOk rest
      | (s', .error e) => (s', .error e)

/-- `FirstLayerNode.SyncUpdates` (lines 104-143): a backup rejects a group
whose `source_node` starts with `'A'` before touching the store; otherwise
the items are applied in order, a primary then fans them out to its backups,
and any exception is converted into a failure acknowledgement. -/
def flSyncUpdates (fl : PBNode) (req : UpdateGroup) (now : Int)
    (logOk : Bool) : PBNode × AckResponse :=
  if fl.is_primary = false ∧ startswithA req.source_node then
    (fl, ⟨false,
      "Backup node cannot accept updates directly from core layer: " ++
        req.source_node⟩)
  else
    match applyUpdates fl.store now logOk req.updates with
    | (s', .error _) =>
        ({ fl with store := s' }, ⟨false, "Failed to sync updates"⟩)
    | (s', .ok _) =>
        let fl' := { fl with store := s' }
        if fl.is_primary ∧ fl.backup_stubs ≠ [] then
          if passiveHandleUpdate fl.backup_stubs req.updates then
            (fl', ⟨true, ""⟩)
          else
            (fl', ⟨false, "Failed to propagate to backups"⟩)
        else
          (fl', ⟨true, ""⟩)

/-- `SecondLayerNode.SyncUpdates` (lines 90-118): no source or role check at
all — every delivered group is applied to the store; a primary with backups
fans out afterwards. -/
def slSyncUpdates (sl : PBNode) (req : UpdateGroup) (now : Int)
    (logOk : Bool) : PBNode × AckResponse :=
  match applyUpdates sl.store now logOk req.updates with
  | (s', .error _) =>
      ({ sl with store := s' }, ⟨false, "Failed to sync updates"⟩)
  | (s', .ok _) =>
      let sl' := { sl with store := s' }
      if sl.is_primary ∧ sl.backup_stubs ≠ [] then
        if passiveHandleUpdate sl.backup_stubs req.updates then
          (sl', ⟨true, ""⟩)
        else
          (sl', ⟨false, "Replication failed"⟩)
      else
        (sl', ⟨true, ""⟩)

/-- Write-scan loop of `FirstLayerNode.ExecuteTransaction` (lines 80-84):
`if op.HasField('write')` — on the flat schema the very first operation makes
`HasField` raise. -/
def flScanWrites : List Operation → Except PyErr Unit
  | [] => .ok ()
  | op :: rest =>
      match op.hasField "write" with
      | .ok true => .error (.exn "Write operations not allowed")
      | .ok false => flScanWrites rest
      | .error e => .error e

/-- Read loop of `FirstLayerNode.ExecuteTransaction` (lines 88-96): guarded
by `op.HasField('read')`, whose success branch would then touch `op.read.key`
(an `AttributeError` on the flat schema). -/
def flCollectReads (store : DataStore) : List Operation → Except PyErr (List DataItem)
  | [] => .ok []
  | op :: rest =>
      match op.hasField "read" with
      | .ok true => .error (.exn "AttributeError: read")
      | .ok false => flCollectReads store rest
      | .error e => .error e

/-- `FirstLayerNode.ExecuteTransaction` (lines 67-102): reject `UPDATE`
transactions, scan for write operations, then serve the reads locally.  No
target-tier check and no forwarding exist.  The store is never written on
this path. -/
def flExecuteTransaction (fl : PBNode) (tx : Transaction) :
    Except PyErr TransactionResponse :=
  if tx.type = .UPDATE then .error (.exn "Write operations not allowed")
  else
    match flScanWrites tx.operations with
    | .error e => .error e
    | .ok _ =>
        match flCollectReads fl.store tx.operations with
        | .error e => .error e
        | .ok rs => .ok ⟨true, rs, ""⟩

/-- Write-scan loop of `SecondLayerNode.ExecuteTransaction` (lines 65-69). -/
def slScanWrites : List Operation → Except PyErr Unit
  | [] => .ok ()
  | op :: rest =>
      if op.type = .WRITE then .error (.exn "Write operations not allowed")
      else slScanWrites rest

/-- Local read loop used by `SecondLayerNode.ExecuteTransaction` (lines
73-81) and by the core's local read path: append the stored item for each
read, skipping absent keys and non-read operations. -/
def collectReads (store : DataStore) : List Operation → List DataItem
  | [] => []
  | op :: rest =>
      if op.type = .READ then
        match store.get op.key with
        | some item => item :: collectReads store rest
        | none => collectReads store rest
      else collectReads store rest

/-- `SecondLayerNode.ExecuteTransaction` (lines 50-88): reject `UPDATE`
transactions and write operations, then serve reads locally in submitted
order. -/
def slExecuteTransaction (sl : PBNode) (tx : Transaction) :
    Except PyErr TransactionResponse :=
  if tx.type = .UPDATE then .error (.exn "Write operations not allowed")
  else
    match slScanWrites tx.operations with
    | .error e => .error e
    | .ok _ => .ok ⟨true, collectReads sl.store tx.operations, ""⟩

/-! ### Claims C1, C5, C8 about the versioned store -/

/-- C1.  The claim says `DataStore.update` overwrites a stored item iff the
new version is strictly greater than the stored one, so stored versions never
decrease.  The code overwrites unconditionally: starting from a store holding
key 7 with version 2, `update 7 1 1` succeeds and leaves version 1 in the
store — the stored version decreased. -/
theorem c1_update_overwrites_unconditionally :
    let s₀ : DataStore :=
      { data := [(7, ⟨7, 2, 2, 0⟩)]
        update_history := [⟨7, 2, 2, 0⟩]
        log := []
        node_id := "A2"
        current_version := 0 }
    let r := s₀.update 7 1 1 1 true
    r.2 = .ok ⟨7, 1, 1, 1⟩ ∧ r.1.get 7 = some ⟨7, 1, 1, 1⟩ ∧
      (s₀.get 7).map DataItem.version = some 2 := by
  constructor
  · rfl
  · constructor <;> rfl

/-- C5.  The claim says a failing log write leaves the in-memory map and ring
unchanged because the in-memory update happens only after the log write.  In
the code the assignments to `_data` and `_update_history` precede the file
writes, so when the log write fails the call raises but both in-memory
structures already hold the new item. -/
theorem c5_memory_mutated_before_failed_log_write :
    (DataStore.update (DataStore.init "A1" []) 1 100 1 5 false).2 =
      .error .ioError ∧
    DataStore.get (DataStore.update (DataStore.init "A1" []) 1 100 1 5 false).1
      1 = some ⟨1, 100, 1, 5⟩ ∧
    (DataStore.update (DataStore.init "A1" []) 1 100 1 5 false).1.update_history =
      [⟨1, 100, 1, 5⟩] ∧
    (DataStore.update (DataStore.init "A1" []) 1 100 1 5 false).1.log = [] := by
  refine ⟨rfl, rfl, rfl, rfl⟩

/-- C8 (counterexample).  The claim says the startup counter is reinitialized
to one past the highest version observed in the durable log.  Constructing a
store over a log whose highest version is 5 leaves the counter at 0, not 6. -/
theorem c8_startup_ignores_log :
    (DataStore.init "A1" [⟨1, 1, 5, 0, "A1"⟩]).current_version = 0 ∧
      maxLogVersion [⟨1, 1, 5, 0, "A1"⟩] + 1 = 6 ∧ (0 : Int) ≠ 6 := by
  refine ⟨rfl, rfl, by decide⟩

/-- C8 (amended).  `get_next_version` returns strictly increasing values
across successive calls within one process lifetime, and at construction the
counter is initialized to 0 regardless of the durable log's contents. -/
theorem c8_next_version_strictly_increasing :
    (∀ s : DataStore,
      (s.getNextVersion).1 < ((s.getNextVersion).2.getNextVersion).1) ∧
    (∀ (nid : String) (priorLog : List LogEntry),
      (DataStore.init nid priorLog).current_version = 0) := by
  constructor
  · intro s
    simp [DataStore.getNextVersion]
  · intro nid priorLog
    rfl

/-! ### Claims C3, C4, C9 about the tier-1 / tier-2 handlers -/

/-- A dict read at a just-written key returns the written item. -/
theorem dictGet_set_self (l : List (Int × DataItem)) (k : Int) (v : DataItem) :
    dictGet (dictSet l k v) k = some v := by
  induction l with
  | nil => simp [dictSet, dictGet]
  | cons hd tl ih =>
      by_cases h : hd.1 = k
      · simp [dictSet, dictGet, h]
      · simp [dictSet, dictGet, h, ih]

/-- C3.  The claim says a READ_ONLY transaction served at its target tier
returns the stored items in order, in particular at the tier-1 node.  At the
tier-1 node every non-empty transaction dies in `op.HasField('write')`,
because the flat `Operation` schema the node imports has no `write` field:
with key 30 stored, reading key 30 raises a `ValueError` instead of
returning the item.  The identical transaction against the tier-2 handler
(which tests `op.type`) succeeds as the claim describes. -/
theorem c3_first_layer_read_raises_field_error :
    let store₀ : DataStore :=
      { data := [(30, ⟨30, 300, 1, 0⟩)]
        update_history := [⟨30, 300, 1, 0⟩]
        log := []
        node_id := "B1"
        current_version := 0 }
    let tx : Transaction := ⟨.READ_ONLY, 1, [⟨.READ, 30, none, 0⟩]⟩
    flExecuteTransaction ⟨"B1", store₀, true, []⟩ tx =
      .error (.valueError "Protocol message Operation has no field write") ∧
    slExecuteTransaction ⟨"C1", store₀, true, []⟩ ⟨.READ_ONLY, 2, [⟨.READ, 30, none, 0⟩]⟩ =
      .ok ⟨true, [⟨30, 300, 1, 0⟩], ""⟩ := by
  exact ⟨rfl, rfl⟩

/-- C4.  The claim says any transaction typed UPDATE or containing a WRITE is
rejected with a WriteNotAllowed error at tier 1 and tier 2.  At the tier-1
node a READ_ONLY transaction containing a WRITE dies with the `HasField`
`ValueError`, not the WriteNotAllowed exception (the node's own test expects
"Write operations not allowed" there); the UPDATE-typed rejection and both
tier-2 rejections do return WriteNotAllowed.  No branch touches a store. -/
theorem c4_write_rejection_divergence :
    let fl : PBNode := ⟨"B1", DataStore.init "B1" [], true, []⟩
    let sl : PBNode := ⟨"C1", DataStore.init "C1" [], true, []⟩
    flExecuteTransaction fl ⟨.READ_ONLY, 1, [⟨.WRITE, 49, some 53, 0⟩]⟩ =
      .error (.valueError "Protocol message Operation has no field write") ∧
    flExecuteTransaction fl ⟨.UPDATE, 0, [⟨.WRITE, 49, some 53, 0⟩]⟩ =
      .error (.exn "Write operations not allowed") ∧
    slExecuteTransaction sl ⟨.READ_ONLY, 2, [⟨.WRITE, 49, some 53, 0⟩]⟩ =
      .error (.exn "Write operations not allowed") ∧
    slExecuteTransaction sl ⟨.UPDATE, 0, [⟨.WRITE, 49, some 53, 0⟩]⟩ =
      .error (.exn "Write operations not allowed") := by
  exact ⟨rfl, rfl, rfl, rfl⟩

/-- C9 (counterexample).  The claim says a tier-2 backup rejects a
`SyncUpdates` whose source is an upper-tier node and applies none of its
items.  `SecondLayerNode.SyncUpdates` has no such check: a backup (primary
flag false) receiving a group from "B1" applies the item and acknowledges
success. -/
theorem c9_second_layer_backup_accepts_upstream_sync :
    let sl : PBNode := ⟨"C2", DataStore.init "C2" [], false, []⟩
    let r := slSyncUpdates sl ⟨[⟨3, 30, 4, 0⟩], "B1", 1, 1⟩ 7 true
    r.2.success = true ∧ r.1.store.get 3 = some ⟨3, 30, 4, 7⟩ := by
  exact ⟨rfl, rfl⟩

/-- C9 (amended).  Only the tier-1 backup rejects upstream syncs: a tier-1
node with the primary flag false rejects any `SyncUpdates` whose
`source_node` starts with 'A', returning failure and leaving its state
untouched; a tier-2 node with the primary flag false applies every delivered
group item and acknowledges success regardless of the source. -/
theorem c9_backup_rejection_amended :
    (∀ (fl : PBNode) (req : UpdateGroup) (now : Int) (logOk : Bool),
      fl.is_primary = false → startswithA req.source_node = true →
      flSyncUpdates fl req now logOk =
        (fl, ⟨false,
          "Backup node cannot accept updates directly from core layer: " ++
            req.source_node⟩)) ∧
    (∀ (sl : PBNode) (src : String) (lay cnt now : Int) (item : DataItem),
      sl.is_primary = false → 0 ≤ item.key → 0 ≤ item.version →
      (slSyncUpdates sl ⟨[item], src, lay, cnt⟩ now true).2.success = true ∧
      (slSyncUpdates sl ⟨[item], src, lay, cnt⟩ now true).1.store.get item.key =
        some ⟨item.key, item.value, item.version, now⟩) := by
  constructor
  · intro fl req now logOk hp hs
    simp [flSyncUpdates, hp, hs]
  · intro sl src lay cnt now item hp hk hv
    have hk' : ¬ item.key < 0 := not_lt.mpr hk
    have hv' : ¬ item.version < 0 := not_lt.mpr hv
    constructor <;>
      simp [slSyncUpdates, applyUpdates, DataStore.update, hk', hv', hp,
        DataStore.get, dictGet_set_self]

/-- Witness for `c9_backup_rejection_amended` at concrete inputs. -/
theorem c9_backup_rejection_amended_witness :
    flSyncUpdates ⟨"B2", DataStore.init "B2" [], false, []⟩
        ⟨[], "A1", 0, 10⟩ 0 true =
      (⟨"B2", DataStore.init "B2" [], false, []⟩,
        ⟨false,
          "Backup node cannot accept updates directly from core layer: A1"⟩) ∧
    (slSyncUpdates ⟨"C2", DataStore.init "C2" [], false, []⟩
        ⟨[⟨1, 2, 3, 0⟩], "B1", 1, 1⟩ 4 true).2.success = true :=
  ⟨c9_backup_rejection_amended.1 _ _ 0 true rfl rfl,
    (c9_backup_rejection_amended.2 _ "B1" 1 1 4 ⟨1, 2, 3, 0⟩ rfl
      (by decide) (by decide)).1⟩

/-! ### Core node (`core_node.py`, `eager_replication.py`)

Network effects are supplied by an environment: `peerAcks n` is the list of
peer responses gathered for the n-th write of the transaction (exceptions
included, as `asyncio.gather(..., return_exceptions=True)` delivers them),
`syncResp n` is the outcome of the n-th `SyncUpdates` RPC to the tier-1
primary, and `logOk` is whether the store's file appends succeed. -/

/-- Outcome of one `PropagateUpdate` call as observed through
`asyncio.gather`: an acknowledgement or a raised exception. -/
inductive PeerResp where
  | ack (success : Bool) (msg : String)
  | exn
deriving DecidableEq, Repr

/-- A response counts as a positive acknowledgement iff it is an `ack` with
`success` set. -/
def PeerResp.isAck : PeerResp → Bool
  | .ack true _ => true
  | _ => false

/-- Response-checking loop of `EagerReplication.handle_update` (lines
76-84): success iff no response is an exception or a rejection. -/
def allPeersAck (rs : List PeerResp) : Bool :=
  rs.all PeerResp.isAck

/-- Outcome of a `SyncUpdates` RPC to the tier-1 primary. -/
inductive SyncResp where
  | ack (success : Bool)
  | rpcError
deriving DecidableEq, Repr

/-- Network / I/O environment of one core transaction. -/
structure Env where
  peerAcks : Nat → List PeerResp
  syncResp : Nat → SyncResp
  logOk : Bool

/-- `EagerReplication.handle_update` (lines 34-100): apply locally first,
then propagate to all peers and await the acknowledgements; any exception or
rejection makes the update count as failed (`_rollback` is a no-op, so the
local application survives).  With no peer stubs the update succeeds
immediately. -/
def eagerHandleUpdate (store : DataStore) (item : DataItem)
    (peers : List PeerResp) (logOk : Bool) : DataStore × Bool :=
  match store.update item.key item.value item.version item.timestamp logOk with
  | (s', .error _) => (s', false)
  | (s', .ok _) =>
      if peers = [] then (s', true)
      else if allPeersAck peers then (s', true) else (s', false)

/-- State of `CoreNode` relevant to the claims: the store, the origin flag
(`is_first_node`), whether the tier-1 stub is connected, and the tier-1
update counter. -/
structure CoreNode where
  node_id : String
  store : DataStore
  is_first_node : Bool
  first_layer_stub : Bool
  update_counter : Int
deriving DecidableEq, Repr

/-- `CoreNode._notify_first_layer` (lines 81-115): send the last 10 ring
items to the tier-1 primary; reset the counter to 0 only on a success
acknowledgement; on a rejection or RPC error (or with no stub, when no call
is made) the counter is preserved.  The returned list is the trace of
`SyncUpdates` calls actually issued. -/
def notifyFirstLayer (node : CoreNode) (resp : SyncResp) :
    CoreNode × List UpdateGroup :=
  let ups := node.store.getRecentUpdates 10
  let g : UpdateGroup := ⟨ups, node.node_id, 0, node.update_counter⟩
  if node.first_layer_stub then
    match resp with
    | .ack true => ({ node with update_counter := 0 }, [g])
    | .ack false => (node, [g])
    | .rpcError => (node, [g])
  else
    (node, [])

/-- One iteration of the operation loop of
`CoreNode._execute_update_transaction` (lines 140-176).  A write draws the
next version, replicates eagerly (which already applies it locally), applies
it locally a second time, and at the origin increments the counter and fires
the tier-1 notification at 10; a read looks the key up locally.  The
`Except` result carries the item appended to `results` (if any); `w` and `s`
index the environment. -/
def execStep (env : Env) (now : Int) (node : CoreNode) (op : Operation)
    (w s : Nat) : CoreNode × List UpdateGroup × Except PyErr (Option DataItem) :=
  match op.type with
  | .WRITE =>
      let (v, store₁) := node.store.getNextVersion
      let item : DataItem := ⟨op.key, op.valueOrDefault, v, now⟩
      let (store₂, ok) := eagerHandleUpdate store₁ item (env.peerAcks w) env.logOk
      if ok then
        match store₂.update item.key item.value item.version now env.logOk with
        | (store₃, .ok _) =>
            let node₃ := { node with store := store₃ }
            if node.is_first_node then
              let node₄ := { node₃ with update_counter := node₃.update_counter + 1 }
              if 10 ≤ node₄.update_counter then
                let nf := notifyFirstLayer node₄ (env.syncResp s)
                (nf.1, nf.2, .ok (some item))
              else
                (node₄, [], .ok (some item))
            else
              (node₃, [], .ok (some item))
        | (store₃, .error e) => ({ node with store := store₃ }, [], .error e)
      else
        ({ node with store := store₂ }, [], .error (.exn "Replication failed"))
  | .READ => (node, [], .ok (node.store.get op.key))

/-- Number of writes among a list of operations (how far the per-write
environment index advances over a successfully executed prefix). -/
def writeCount : List Operation → Nat
  | [] => 0
  | op :: rest => (if op.type = .WRITE then 1 else 0) + writeCount rest

/-- Prepend an optional result item, mirroring the conditional
`results.append`. -/
def consOpt (mi : Option DataItem) (res : List DataItem) : List DataItem :=
  match mi with
  | some i => i :: res
  | none => res

/-- Operation loop of `CoreNode._execute_update_transaction`: run the
operations in submitted order, stopping at the first raised exception, and
collect the results, the issued tier-1 sync calls and the final node
state. -/
def execOps (env : Env) (now : Int) :
    CoreNode → List Operation → Nat → Nat →
    CoreNode × List UpdateGroup × Except PyErr (List DataItem)
  | node, [], _, _ => (node, [], .ok [])
  | node, op :: rest, w, s =>
      match execStep env now node op w s with
      | (n₁, t₁, .error e) => (n₁, t₁, .error e)
      | (n₁, t₁, .ok mi) =>
          match execOps env now n₁ rest (w + (if op.type = .WRITE then 1 else 0))
              (s + t₁.length) with
          | (n₂, t₂, .error e) => (n₂, t₁ ++ t₂, .error e)
          | (n₂, t₂, .ok res) => (n₂, t₁ ++ t₂, .ok (consOpt mi res))

/-- `CoreNode._execute_read_transaction` (lines 188-240): a positive target
layer is forwarded to the tier-1 primary only when the target is exactly 1
and this node is the designated first node with a connected stub (the
downstream reply is returned unchanged on success, its error is re-raised on
failure); any other positive target raises "Cannot route"; target 0 is
served from the local store. -/
def coreExecuteReadTx (node : CoreNode)
    (flResp : Transaction → Except PyErr TransactionResponse)
    (tx : Transaction) : Except PyErr TransactionResponse :=
  if 0 < tx.target_layer then
    if tx.target_layer = 1 ∧ node.is_first_node ∧ node.first_layer_stub then
      match flResp tx with
      | .ok resp =>
          if resp.success then .ok resp else .error (.exn resp.error_message)
      | .error e => .error e
    else
      .error (.exn ("Cannot route to layer " ++ toString tx.target_layer))
  else
    .ok ⟨true, collectReads node.store tx.operations, ""⟩

/-- `CoreNode.ExecuteTransaction` (lines 117-186): dispatch on the
transaction type; UPDATE transactions run the operation loop and wrap its
results on success. -/
def coreExecuteTransaction (node : CoreNode) (env : Env)
    (flResp : Transaction → Except PyErr TransactionResponse)
    (tx : Transaction) (now : Int) :
    CoreNode × List UpdateGroup × Except PyErr TransactionResponse :=
  if tx.type = .UPDATE then
    match execOps env now node tx.operations 0 0 with
    | (n', t, .ok res) => (n', t, .ok ⟨true, res, ""⟩)
    | (n', t, .error e) => (n', t, .error e)
  else
    (node, [], coreExecuteReadTx node flResp tx)

/-- Running the operation loop on an appended list first runs the prefix;
if the prefix succeeds the suffix continues from its final state with the
environment indices advanced. -/
theorem execOps_append (env : Env) (now : Int) (ops₁ ops₂ : List Operation) :
    ∀ (node n₁ : CoreNode) (w s : Nat) (t₁ : List UpdateGroup)
      (r₁ : List DataItem),
    execOps env now node ops₁ w s = (n₁, t₁, .ok r₁) →
    execOps env now node (ops₁ ++ ops₂) w s =
      (match execOps env now n₁ ops₂ (w + writeCount ops₁) (s + t₁.length) with
       | (n₂, t₂, .error e) => (n₂, t₁ ++ t₂, .error e)
       | (n₂, t₂, .ok res₂) => (n₂, t₁ ++ t₂, .ok (r₁ ++ res₂))) := by
  induction ops₁ with
  | nil =>
      intro node n₁ w s t₁ r₁ h
      simp only [execOps, Prod.mk.injEq, Except.ok.injEq] at h
      obtain ⟨rfl, rfl, rfl⟩ := h
      simp only [List.nil_append, writeCount, Nat.add_zero, List.length_nil]
      rcases h2 : execOps env now node ops₂ w s with ⟨n₂, t₂, r₂⟩
      cases r₂ <;> simp [h2]
  | cons op rest ih =>
      intro node n₁ w s t₁ r₁ h
      rw [List.cons_append]
      simp only [execOps] at h ⊢
      rcases hstep : execStep env now node op w s with ⟨m₁, u₁, rstep⟩
      cases rstep with
      | error e =>
          rw [hstep] at h
          simp at h
      | ok mi =>
          rw [hstep] at h
          dsimp only at h
          rcases hrest : execOps env now m₁ rest
              (w + (if op.type = .WRITE then 1 else 0)) (s + u₁.length) with
            ⟨m₂, u₂, rrest⟩
          rw [hrest] at h
          cases rrest with
          | error e => dsimp only at h; simp at h
          | ok res =>
              dsimp only at h
              simp only [Prod.mk.injEq, Except.ok.injEq] at h
              obtain ⟨rfl, rfl, rfl⟩ := h
              have happ := ih m₁ m₂ (w + (if op.type = .WRITE then 1 else 0))
                (s + u₁.length) u₂ res hrest
              have hw : (w + (if op.type = .WRITE then 1 else 0)) + writeCount rest =
                  w + writeCount (op :: rest) := by
                simp only [writeCount]; omega
              have hs : s + u₁.length + u₂.length = s + (u₁ ++ u₂).length := by
                simp only [List.length_append]; omega
              rw [hw, hs] at happ
              dsimp only
              rw [happ]
              rcases h4 : execOps env now m₂ ops₂ (w + writeCount (op :: rest))
                  (s + (u₁ ++ u₂).length) with ⟨p₂, v₂, rr⟩
              cases rr <;> simp [consOpt] <;> cases mi <;> simp [consOpt]

/-- A dict read at a key other than the one just written is unchanged. -/
theorem dictGet_set_ne (l : List (Int × DataItem)) (k k' : Int) (v : DataItem)
    (h : k' ≠ k) : dictGet (dictSet l k v) k' = dictGet l k' := by
  have h2 : ¬ k = k' := fun hh => h hh.symm
  induction l with
  | nil => simp [dictSet, dictGet, h2]
  | cons hd tl ih =>
      obtain ⟨a, b⟩ := hd
      by_cases h1 : a = k
      · simp [dictSet, dictGet, h1, h2]
      · simp [dictSet, dictGet, h1, ih]

/-- `_notify_first_layer` never touches the store. -/
theorem notifyFirstLayer_store (n : CoreNode) (r : SyncResp) :
    (notifyFirstLayer n r).1.store = n.store := by
  unfold notifyFirstLayer
  split
  · cases r with
    | ack b => cases b <;> rfl
    | rpcError => rfl
  · rfl

/-- With a connected stub, a success acknowledgement resets the counter and
the single issued call carries the last 10 ring items and the counter
value. -/
theorem notifyFirstLayer_ack_true (n : CoreNode)
    (h : n.first_layer_stub = true) :
    notifyFirstLayer n (.ack true) =
      ({ n with update_counter := 0 },
        [⟨n.store.getRecentUpdates 10, n.node_id, 0, n.update_counter⟩]) := by
  simp [notifyFirstLayer, h]

/-- With a connected stub, a rejection or RPC error preserves the counter
while the call was still issued. -/
theorem notifyFirstLayer_no_ack (n : CoreNode) (r : SyncResp)
    (h : n.first_layer_stub = true) (hr : r ≠ .ack true) :
    notifyFirstLayer n r =
      (n, [⟨n.store.getRecentUpdates 10, n.node_id, 0, n.update_counter⟩]) := by
  cases r with
  | ack b =>
      cases b
      · simp [notifyFirstLayer, h]
      · exact absurd rfl hr
  | rpcError => simp [notifyFirstLayer, h]

/-- Normal form of a write step whose replication succeeds: the item is
applied twice (once inside `handle_update`, once by the transaction loop),
then the origin bookkeeping runs. -/
theorem execStep_write_ok (env : Env) (now : Int) (node : CoreNode)
    (op : Operation) (w s : Nat)
    (hty : op.type = .WRITE) (hlog : env.logOk = true)
    (hkey : 0 ≤ op.key) (hver : 0 ≤ node.store.current_version)
    (hpeers : allPeersAck (env.peerAcks w) = true) :
    execStep env now node op w s =
      (let item : DataItem :=
        ⟨op.key, op.valueOrDefault, node.store.current_version + 1, now⟩
       let e : LogEntry :=
        ⟨op.key, op.valueOrDefault, node.store.current_version + 1, now,
          node.store.node_id⟩
       let store₃ : DataStore :=
        { node.store with
          current_version := node.store.current_version + 1
          data := dictSet (dictSet node.store.data op.key item) op.key item
          update_history :=
            ringAppend (ringAppend node.store.update_history item) item
          log := node.store.log ++ [e] ++ [e] }
       let node₃ : CoreNode := { node with store := store₃ }
       if node.is_first_node then
         let node₄ : CoreNode :=
          { node₃ with update_counter := node₃.update_counter + 1 }
         if 10 ≤ node₄.update_counter then
           let nf := notifyFirstLayer node₄ (env.syncResp s)
           (nf.1, nf.2, .ok (some item))
         else
           (node₄, [], .ok (some item))
       else
         (node₃, [], .ok (some item))) := by
  have hk' : ¬ op.key < 0 := not_lt.mpr hkey
  have hv' : ¬ node.store.current_version + 1 < 0 := by omega
  cases hpe : env.peerAcks w with
  | nil =>
      simp [execStep, hty, DataStore.getNextVersion, eagerHandleUpdate,
        DataStore.update, hk', hv', hlog, hpe]
  | cons a l =>
      rw [hpe] at hpeers
      simp [execStep, hty, DataStore.getNextVersion, eagerHandleUpdate,
        DataStore.update, hk', hv', hlog, hpe, hpeers]

/-- Normal form of a write step whose peer fan-out fails: the single local
application from `handle_update` survives (the rollback is a no-op), the
step raises "Replication failed", and no tier-1 call is made. -/
theorem execStep_write_fail (env : Env) (now : Int) (node : CoreNode)
    (op : Operation) (w s : Nat)
    (hty : op.type = .WRITE) (hlog : env.logOk = true)
    (hkey : 0 ≤ op.key) (hver : 0 ≤ node.store.current_version)
    (hfail : allPeersAck (env.peerAcks w) = false) :
    execStep env now node op w s =
      (let item : DataItem :=
        ⟨op.key, op.valueOrDefault, node.store.current_version + 1, now⟩
       let e : LogEntry :=
        ⟨op.key, op.valueOrDefault, node.store.current_version + 1, now,
          node.store.node_id⟩
       ({ node with store :=
          { node.store with
            current_version := node.store.current_version + 1
            data := dictSet node.store.data op.key item
            update_history := ringAppend node.store.update_history item
            log := node.store.log ++ [e] } },
        [], .error (.exn "Replication failed"))) := by
  have hk' : ¬ op.key < 0 := not_lt.mpr hkey
  have hv' : ¬ node.store.current_version + 1 < 0 := by omega
  have hne : env.peerAcks w ≠ [] := by
    intro h
    rw [h] at hfail
    simp [allPeersAck] at hfail
  cases hpe : env.peerAcks w with
  | nil => exact absurd hpe hne
  | cons a l =>
      rw [hpe] at hfail
      simp [execStep, hty, DataStore.getNextVersion, eagerHandleUpdate,
        DataStore.update, hk', hv', hlog, hpe, hfail]

/-! ### Claims C10, C2, C6, C7 about the core write path and routing -/

/-- C10.  Each successful write of an UPDATE transaction at a core node goes
through `DataStore.update` twice with the same key, value and version — once
inside `EagerReplication.handle_update` and once afterwards in
`_execute_update_transaction` — so it appends two identical records to the
durable version log and occupies two entries of the recent-updates ring. -/
theorem c10_write_double_application (env : Env) (now : Int) (node : CoreNode)
    (op : Operation) (w s : Nat)
    (hty : op.type = .WRITE) (hlog : env.logOk = true)
    (hkey : 0 ≤ op.key) (hver : 0 ≤ node.store.current_version)
    (hpeers : allPeersAck (env.peerAcks w) = true)
    (hring : node.store.update_history.length ≤ 98) :
    (execStep env now node op w s).2.2 =
      .ok (some ⟨op.key, op.valueOrDefault, node.store.current_version + 1, now⟩) ∧
    (execStep env now node op w s).1.store.log =
      node.store.log ++
        [⟨op.key, op.valueOrDefault, node.store.current_version + 1, now,
            node.store.node_id⟩,
         ⟨op.key, op.valueOrDefault, node.store.current_version + 1, now,
            node.store.node_id⟩] ∧
    (execStep env now node op w s).1.store.update_history =
      node.store.update_history ++
        [⟨op.key, op.valueOrDefault, node.store.current_version + 1, now⟩,
         ⟨op.key, op.valueOrDefault, node.store.current_version + 1, now⟩] := by
  rw [execStep_write_ok env now node op w s hty hlog hkey hver hpeers]
  have h1 : node.store.update_history.length < 100 := by omega
  have hr1 : ringAppend node.store.update_history
      ⟨op.key, op.valueOrDefault, node.store.current_version + 1, now⟩ =
      node.store.update_history ++
        [⟨op.key, op.valueOrDefault, node.store.current_version + 1, now⟩] := by
    unfold ringAppend
    rw [if_pos h1]
  have h2 : (node.store.update_history ++
      [(⟨op.key, op.valueOrDefault, node.store.current_version + 1, now⟩ :
        DataItem)]).length < 100 := by
    simp
    omega
  have hr2 : ringAppend (node.store.update_history ++
      [(⟨op.key, op.valueOrDefault, node.store.current_version + 1, now⟩ :
        DataItem)])
      ⟨op.key, op.valueOrDefault, node.store.current_version + 1, now⟩ =
      node.store.update_history ++
        [⟨op.key, op.valueOrDefault, node.store.current_version + 1, now⟩,
         ⟨op.key, op.valueOrDefault, node.store.current_version + 1, now⟩] := by
    unfold ringAppend
    rw [if_pos h2]
    simp
  by_cases hfn : node.is_first_node = true
  · by_cases hcnt : 10 ≤ node.update_counter + 1
    · simp [hfn, hcnt, notifyFirstLayer_store, hr1, hr2]
    · simp [hfn, hcnt, hr1, hr2]
  · simp [hfn, hr1, hr2]

/-- Witness for `c10_write_double_application` at a concrete input. -/
theorem c10_write_double_application_witness :
    ((0 : Int) ≤ 3 ∧ allPeersAck [PeerResp.ack true "ok"] = true) ∧
    (execStep ⟨fun _ => [PeerResp.ack true "ok"], fun _ => .ack true, true⟩ 0
        ⟨"A2", DataStore.init "A2" [], false, false, 0⟩
        ⟨.WRITE, 3, some 7, 0⟩ 0 0).2.2 = .ok (some ⟨3, 7, 1, 0⟩) ∧
    (execStep ⟨fun _ => [PeerResp.ack true "ok"], fun _ => .ack true, true⟩ 0
        ⟨"A2", DataStore.init "A2" [], false, false, 0⟩
        ⟨.WRITE, 3, some 7, 0⟩ 0 0).1.store.update_history =
      [⟨3, 7, 1, 0⟩, ⟨3, 7, 1, 0⟩] :=
  ⟨⟨by decide, by decide⟩,
    (c10_write_double_application _ 0 _ _ 0 0 rfl rfl (by decide) (by decide)
      (by decide) (by decide)).1,
    (c10_write_double_application _ 0 _ _ 0 0 rfl rfl (by decide) (by decide)
      (by decide) (by decide)).2.2⟩

/-- C2 (counterexample).  The claim says the `SyncUpdates` group fired at the
10th write carries exactly the 10 successful core writes since the previous
trigger.  Running one UPDATE transaction with writes to keys 0..9 from a
fresh origin: exactly one sync call is made, but — because every write enters
the ring twice — its group holds keys [5,5,6,6,7,7,8,8,9,9], not the ten
written keys; the counter does reset to 0 and the ten writes do succeed. -/
theorem c2_sync_group_is_not_the_ten_writes :
    let env0 : Env := ⟨fun _ => [], fun _ => .ack true, true⟩
    let node0 : CoreNode := ⟨"A1", DataStore.init "A1" [], true, true, 0⟩
    let ops : List Operation :=
      [⟨.WRITE, 0, some 100, 0⟩, ⟨.WRITE, 1, some 100, 0⟩,
       ⟨.WRITE, 2, some 100, 0⟩, ⟨.WRITE, 3, some 100, 0⟩,
       ⟨.WRITE, 4, some 100, 0⟩, ⟨.WRITE, 5, some 100, 0⟩,
       ⟨.WRITE, 6, some 100, 0⟩, ⟨.WRITE, 7, some 100, 0⟩,
       ⟨.WRITE, 8, some 100, 0⟩, ⟨.WRITE, 9, some 100, 0⟩]
    let r := execOps env0 0 node0 ops 0 0
    r.2.1.map (fun g => g.updates.map DataItem.key) =
      [[5, 5, 6, 6, 7, 7, 8, 8, 9, 9]] ∧
    r.2.1.map (fun g => g.updates.map DataItem.key) ≠
      [[0, 1, 2, 3, 4, 5, 6, 7, 8, 9]] ∧
    r.1.update_counter = 0 ∧
    r.2.2 = .ok
      [⟨0, 100, 1, 0⟩, ⟨1, 100, 2, 0⟩, ⟨2, 100, 3, 0⟩, ⟨3, 100, 4, 0⟩,
       ⟨4, 100, 5, 0⟩, ⟨5, 100, 6, 0⟩, ⟨6, 100, 7, 0⟩, ⟨7, 100, 8, 0⟩,
       ⟨8, 100, 9, 0⟩, ⟨9, 100, 10, 0⟩] := by
  refine ⟨by decide, by decide, by decide, by rfl⟩

/-- C2 (amended).  At the origin, each applied write increments the tier-1
counter by 1; when the counter reaches 10 (stub connected) exactly one
`SyncUpdates` call is made whose group carries the last 10 entries of the
recent-updates ring — which, each write being applied twice, are the last 5
writes duplicated, not the last 10 writes — together with the counter value;
the counter is reset to 0 on a success acknowledgement and preserved on a
rejection or RPC error. -/
theorem c2_count_trigger_amended (env : Env) (now : Int) (node : CoreNode)
    (op : Operation) (w s : Nat)
    (hty : op.type = .WRITE) (hlog : env.logOk = true)
    (hkey : 0 ≤ op.key) (hver : 0 ≤ node.store.current_version)
    (hpeers : allPeersAck (env.peerAcks w) = true)
    (hfn : node.is_first_node = true) (hstub : node.first_layer_stub = true) :
    (node.update_counter + 1 < 10 →
      (execStep env now node op w s).2.1 = [] ∧
      (execStep env now node op w s).1.update_counter =
        node.update_counter + 1) ∧
    (10 ≤ node.update_counter + 1 →
      (execStep env now node op w s).2.1 =
        [⟨lastSlice (ringAppend (ringAppend node.store.update_history
              ⟨op.key, op.valueOrDefault, node.store.current_version + 1, now⟩)
              ⟨op.key, op.valueOrDefault, node.store.current_version + 1, now⟩) 10,
          node.node_id, 0, node.update_counter + 1⟩] ∧
      (env.syncResp s = .ack true →
        (execStep env now node op w s).1.update_counter = 0) ∧
      (env.syncResp s ≠ .ack true →
        (execStep env now node op w s).1.update_counter =
          node.update_counter + 1)) := by
  rw [execStep_write_ok env now node op w s hty hlog hkey hver hpeers]
  constructor
  · intro hlt
    have hcnt : ¬ 10 ≤ node.update_counter + 1 := by omega
    simp [hfn, hcnt]
  · intro hge
    by_cases hsr : env.syncResp s = .ack true
    · simp [hfn, hge, hsr, notifyFirstLayer_ack_true, hstub,
        DataStore.getRecentUpdates]
    · simp [hfn, hge, hsr, notifyFirstLayer_no_ack, hstub,
        DataStore.getRecentUpdates]

/-- Witness for `c2_count_trigger_amended` at a concrete input (counter at
9, success acknowledgement: the counter resets to 0). -/
theorem c2_count_trigger_amended_witness :
    ((10 : Int) ≤ 9 + 1 ∧ allPeersAck ([] : List PeerResp) = true) ∧
    (execStep ⟨fun _ => [], fun _ => .ack true, true⟩ 0
        ⟨"A1", DataStore.init "A1" [], true, true, 9⟩
        ⟨.WRITE, 0, some 100, 0⟩ 0 0).1.update_counter = 0 :=
  ⟨⟨by decide, by decide⟩,
    ((c2_count_trigger_amended ⟨fun _ => [], fun _ => .ack true, true⟩ 0
        ⟨"A1", DataStore.init "A1" [], true, true, 9⟩
        ⟨.WRITE, 0, some 100, 0⟩ 0 0 rfl rfl (by decide) (by decide)
        (by decide) rfl rfl).2 (by decide)).2.1 rfl⟩

/-- C6.  During an UPDATE transaction at a core node, a write whose peer
fan-out returns a rejection or an exception fails the transaction: the run
equals the run truncated at the failing write (nothing after it is
attempted), it raises "Replication failed", the tier-1 sync trace is that of
the successful prefix, the writes applied by the prefix are not rolled back
(every other key still reads as it did after the prefix), and the failing
write's own local application from `handle_update` survives. -/
theorem c6_peer_failure_aborts_without_rollback (env : Env) (now : Int)
    (node : CoreNode) (ops₁ ops₂ : List Operation) (op : Operation)
    (n₁ : CoreNode) (t₁ : List UpdateGroup) (r₁ : List DataItem)
    (hpre : execOps env now node ops₁ 0 0 = (n₁, t₁, .ok r₁))
    (hty : op.type = .WRITE) (hlog : env.logOk = true) (hkey : 0 ≤ op.key)
    (hver : 0 ≤ n₁.store.current_version)
    (hfail : allPeersAck (env.peerAcks (writeCount ops₁)) = false) :
    execOps env now node (ops₁ ++ op :: ops₂) 0 0 =
      execOps env now node (ops₁ ++ [op]) 0 0 ∧
    (execOps env now node (ops₁ ++ op :: ops₂) 0 0).2.2 =
      .error (.exn "Replication failed") ∧
    (execOps env now node (ops₁ ++ op :: ops₂) 0 0).2.1 = t₁ ∧
    (∀ k, k ≠ op.key →
      (execOps env now node (ops₁ ++ op :: ops₂) 0 0).1.store.get k =
        n₁.store.get k) ∧
    (execOps env now node (ops₁ ++ op :: ops₂) 0 0).1.store.get op.key =
      some ⟨op.key, op.valueOrDefault, n₁.store.current_version + 1, now⟩ := by
  have hstep := execStep_write_fail env now n₁ op (0 + writeCount ops₁)
    (0 + t₁.length) hty hlog hkey hver (by simpa using hfail)
  have hsuf : ∀ rest : List Operation,
      execOps env now n₁ (op :: rest) (0 + writeCount ops₁) (0 + t₁.length) =
        ((execStep env now n₁ op (0 + writeCount ops₁) (0 + t₁.length)).1,
          [], .error (.exn "Replication failed")) := by
    intro rest
    simp only [execOps]
    rw [hstep]
  have happ := execOps_append env now ops₁ (op :: ops₂) node n₁ 0 0 t₁ r₁ hpre
  have happ1 := execOps_append env now ops₁ [op] node n₁ 0 0 t₁ r₁ hpre
  rw [hsuf ops₂] at happ
  rw [hsuf []] at happ1
  dsimp only at happ happ1
  have hget : ∀ k, (execStep env now n₁ op (0 + writeCount ops₁)
      (0 + t₁.length)).1.store.get k =
      dictGet (dictSet n₁.store.data op.key
        ⟨op.key, op.valueOrDefault, n₁.store.current_version + 1, now⟩) k := by
    intro k
    rw [hstep]
    rfl
  refine ⟨by rw [happ, happ1], ?_, ?_, ?_, ?_⟩
  · rw [happ]
  · rw [happ]
    simp
  · intro k hk
    rw [happ]
    dsimp only
    rw [hget k, dictGet_set_ne _ _ _ _ hk]
    rfl
  · rw [happ]
    dsimp only
    rw [hget op.key, dictGet_set_self]

/-- Witness for `c6_peer_failure_aborts_without_rollback` at a concrete
input: write to key 0 succeeds, the write to key 1 is rejected by the peer,
the write to key 2 is never attempted. -/
theorem c6_peer_failure_witness :
    (execOps ⟨fun n => if n = 0 then [.ack true ""] else [.exn],
        fun _ => .ack true, true⟩ 0
      ⟨"A3", DataStore.init "A3" [], false, false, 0⟩
      [⟨.WRITE, 0, some 10, 0⟩] 0 0 =
      (⟨"A3", ⟨[(0, ⟨0, 10, 1, 0⟩)], [⟨0, 10, 1, 0⟩, ⟨0, 10, 1, 0⟩],
          [⟨0, 10, 1, 0, "A3"⟩, ⟨0, 10, 1, 0, "A3"⟩], "A3", 1⟩,
        false, false, 0⟩, [], .ok [⟨0, 10, 1, 0⟩]) ∧
      allPeersAck [PeerResp.exn] = false) ∧
    (execOps ⟨fun n => if n = 0 then [.ack true ""] else [.exn],
        fun _ => .ack true, true⟩ 0
      ⟨"A3", DataStore.init "A3" [], false, false, 0⟩
      ([⟨.WRITE, 0, some 10, 0⟩] ++ ⟨.WRITE, 1, some 20, 0⟩ ::
        [⟨.WRITE, 2, some 30, 0⟩]) 0 0).2.2 =
      .error (.exn "Replication failed") :=
  ⟨⟨by rfl, by decide⟩,
    (c6_peer_failure_aborts_without_rollback
      ⟨fun n => if n = 0 then [.ack true ""] else [.exn],
        fun _ => .ack true, true⟩ 0
      ⟨"A3", DataStore.init "A3" [], false, false, 0⟩
      [⟨.WRITE, 0, some 10, 0⟩] [⟨.WRITE, 2, some 30, 0⟩]
      ⟨.WRITE, 1, some 20, 0⟩
      ⟨"A3", ⟨[(0, ⟨0, 10, 1, 0⟩)], [⟨0, 10, 1, 0⟩, ⟨0, 10, 1, 0⟩],
          [⟨0, 10, 1, 0, "A3"⟩, ⟨0, 10, 1, 0, "A3"⟩], "A3", 1⟩,
        false, false, 0⟩ [] [⟨0, 10, 1, 0⟩]
      (by rfl) rfl rfl (by decide) (by decide) (by decide)).2.1⟩

/-- C7 (counterexample).  The claim says a core peer forwards any READ_ONLY
transaction with `target_tier > 0` to the first-tier primary, which cascades
to tier 2, so a tier-2 read submitted at a core peer succeeds.  Even at the
designated first node with a connected, successfully answering downstream
stub, a READ_ONLY transaction targeting layer 2 raises "Cannot route to
layer 2" instead of succeeding. -/
theorem c7_core_cannot_route_to_layer_2 :
    let node : CoreNode := ⟨"A1", DataStore.init "A1" [], true, true, 0⟩
    coreExecuteTransaction node ⟨fun _ => [], fun _ => .ack true, true⟩
        (fun _ => .ok ⟨true, [⟨0, 10, 1, 0⟩], ""⟩)
        ⟨.READ_ONLY, 2, [⟨.READ, 0, none, 0⟩]⟩ 0 =
      (node, [], .error (.exn ("Cannot route to layer " ++ toString (2 : Int)))) ∧
    ("Cannot route to layer " ++ toString (2 : Int)) = "Cannot route to layer 2" := by
  exact ⟨rfl, rfl⟩

/-- C7 (amended).  A core node forwards a READ_ONLY transaction downstream
only when `target_layer = 1` and it is the designated first node with a
connected stub, in which case a successful downstream response is returned
unchanged; a READ_ONLY transaction with `target_layer = 2` always raises
"Cannot route to layer 2" — no cascade to tier 2 exists. -/
theorem c7_routing_amended (node : CoreNode) (env : Env)
    (flResp : Transaction → Except PyErr TransactionResponse)
    (tx : Transaction) (now : Int) (hty : tx.type = .READ_ONLY) :
    (tx.target_layer = 1 → node.is_first_node = true →
      node.first_layer_stub = true →
      ∀ r, flResp tx = .ok r → r.success = true →
      coreExecuteTransaction node env flResp tx now = (node, [], .ok r)) ∧
    (tx.target_layer = 2 →
      coreExecuteTransaction node env flResp tx now =
        (node, [],
          .error (.exn ("Cannot route to layer " ++ toString tx.target_layer)))) := by
  constructor
  · intro h1 h2 h3 r hr hs
    simp [coreExecuteTransaction, hty, coreExecuteReadTx, h1, h2, h3, hr, hs]
  · intro h1
    simp [coreExecuteTransaction, hty, coreExecuteReadTx, h1]

/-- Witness for `c7_routing_amended`: a layer-1 read at the first node is
forwarded and the downstream response comes back unchanged. -/
theorem c7_routing_amended_witness :
    coreExecuteTransaction ⟨"A1", DataStore.init "A1" [], true, true, 0⟩
        ⟨fun _ => [], fun _ => .ack true, true⟩
        (fun _ => .ok ⟨true, [⟨5, 15, 2, 0⟩], ""⟩)
        ⟨.READ_ONLY, 1, [⟨.READ, 5, none, 0⟩]⟩ 0 =
      (⟨"A1", DataStore.init "A1" [], true, true, 0⟩, [],
        .ok ⟨true, [⟨5, 15, 2, 0⟩], ""⟩) :=
  (c7_routing_amended ⟨"A1", DataStore.init "A1" [], true, true, 0⟩
    ⟨fun _ => [], fun _ => .ack true, true⟩
    (fun _ => .ok ⟨true, [⟨5, 15, 2, 0⟩], ""⟩)
    ⟨.READ_ONLY, 1, [⟨.READ, 5, none, 0⟩]⟩ 0 rfl).1 rfl rfl rfl
    ⟨true, [⟨5, 15, 2, 0⟩], ""⟩ rfl rfl
